import Mathlib

/-!
Formal model of the ESP32 soil-monitor firmware core
(`src/SoilMonitor.ino`, `src/SoilMonitor_Debug.ino`).

The firmware's integer arithmetic is modelled over `Int`; C `long`
division truncates toward zero, which is `Int.tdiv`.  Machine widths are
irrelevant for the quantities involved (ADC values 0–4095, percentages,
epoch seconds), except where noted in comments.
-/

/-- A dry/wet calibration pair, as read from the `sensor-config` NVS
namespace with defaults `dry_value = 2800`, `wet_value = 1300`
(`SoilMonitor.ino` lines 473–476). -/
structure CalibrationPair where
  dryValue : Int
  wetValue : Int
deriving DecidableEq

/-- The Arduino-ESP32 core's `map(x, in_min, in_max, out_min, out_max)`
(`WMath.cpp`): guarded against an empty input range (returns `-1` after
logging an error), otherwise `(x - in_min) * (out_max - out_min) /
(in_max - in_min) + out_min` with C truncating integer division. -/
def arduinoMap (x inMin inMax outMin outMax : Int) : Int :=
  let run := inMax - inMin
  if run = 0 then -1
  else
    let rise := outMax - outMin
    let delta := x - inMin
    Int.tdiv (delta * rise) run + outMin

/-- The Arduino `constrain(amt, low, high)` macro:
`amt < low ? low : (amt > high ? high : amt)`. -/
def constrain (amt low high : Int) : Int :=
  if amt < low then low else if amt > high then high else amt

/-- The moisture-percent computation of `sendDataToGitHub`
(`SoilMonitor.ino` lines 478–479): `map(soilMoisture, dryValue,
wetValue, 0, 100)` then `constrain(., 0, 100)`.  The C code stores the
`long` result of `map` in a `float`; every value this model clamps is
produced by integer arithmetic, so the clamped result is exactly this
integer. -/
def mapMoisture (soilMoisture : Int) (pair : CalibrationPair) : Int :=
  constrain (arduinoMap soilMoisture pair.dryValue pair.wetValue 0 100) 0 100

/-- The one-decimal value actually placed in the webhook payload, in
tenths of a percent: the C code sends `round(moisturePercent * 10) /
10.0` (`SoilMonitor.ino` line 493), and `moisturePercent` is an
integer-valued float, so `round(moisturePercent * 10)` is exactly
`mapMoisture * 10`. -/
def moisturePercentTenths (soilMoisture : Int) (pair : CalibrationPair) : Int :=
  mapMoisture soilMoisture pair * 10

/-- The `sensor-config` NVS namespace: the two keys the calibration code
touches, `none` meaning the key has never been written (so
`preferences.getInt` falls back to its default). -/
structure SensorStore where
  dry : Option Int
  wet : Option Int
deriving DecidableEq

/-- The calibration pair a reader of the store obtains:
`preferences.getInt("dry_value", 2800)` / `getInt("wet_value", 1300)`. -/
def storePair (st : SensorStore) : CalibrationPair :=
  ⟨st.dry.getD 2800, st.wet.getD 1300⟩

/-- Outcome of one calibration attempt, naming the three branches of
`performCalibration` (`SoilMonitor.ino` lines 209–249). -/
inductive Outcome
  | DryUpdated
  | WetUpdated
  | NoChange
deriving DecidableEq

/-- Effect of `performCalibration` (`SoilMonitor.ino` lines 209–249) on
the `sensor-config` store, given the 20-sample average `currentValue`:
`currentValue >= 2000` writes `dry_value`; else `currentValue <= 1800`
writes `wet_value`; otherwise nothing is written. -/
def performCalibration (currentValue : Int) (st : SensorStore) : SensorStore :=
  if currentValue ≥ 2000 then { st with dry := some currentValue }
  else if currentValue ≤ 1800 then { st with wet := some currentValue }
  else st

/-- Which of the three `performCalibration` branches runs for a given
20-sample average (same ordered conditions as the source). -/
def calibrationOutcome (currentValue : Int) : Outcome :=
  if currentValue ≥ 2000 then Outcome.DryUpdated
  else if currentValue ≤ 1800 then Outcome.WetUpdated
  else Outcome.NoChange

/-- Modelled from the spec: the Calibration Engine's decision rule on
calibration pairs (`calibrate(sample, previous) -> (pair, Outcome)`,
spec §4.2), stated on pairs to be compared with the store-level
behaviour of `performCalibration`. -/
def specCalibrate (sample : Int) (previous : CalibrationPair) : CalibrationPair × Outcome :=
  if sample ≥ 2000 then (⟨sample, previous.wetValue⟩, Outcome.DryUpdated)
  else if sample ≤ 1800 then (⟨previous.dryValue, sample⟩, Outcome.WetUpdated)
  else (previous, Outcome.NoChange)

/-- Effect of the debug sketch's `calibrateSensor`
(`SoilMonitor_Debug.ino` lines 111–167) on the `sensor-config` store:
after prompting for a dry phase and a wet phase it unconditionally
writes both `dry_value := dryAvg` and `wet_value := wetAvg`, the two
20-sample phase averages. -/
def calibrateSensor (dryAvg wetAvg : Int) (st : SensorStore) : SensorStore :=
  { st with dry := some dryAvg, wet := some wetAvg }

/-- `DEFAULT_SLEEP_SECONDS` (`SoilMonitor.ino` line 12). -/
def DEFAULT_SLEEP_SECONDS : Int := 1800

/-- JST offset installed by `configTime(9 * 3600, 0, ...)`. -/
def JST_OFFSET : Int := 9 * 3600

/-- `tm_min` of `localtime(&now)` for the epoch values the firmware
handles (all ≥ 1_000_000_000 at the call sites): minutes within the
hour of local time.  Leap seconds do not exist in POSIX epoch time. -/
def tmMin (t : Int) : Int := (t + JST_OFFSET) / 60 % 60

/-- `tm_sec` of `localtime(&now)` for the epoch values the firmware
handles: seconds within the minute of local time. -/
def tmSec (t : Int) : Int := (t + JST_OFFSET) % 60

/-- `calculateNextWakeTime` (`SoilMonitor.ino` lines 516–553), as a
function of the `time_t` value read after the NTP wait: below the
sanity threshold it returns the default; otherwise it computes the
seconds to the next :00/:30 boundary, including the source's (dead)
`minutesToTarget == 60` special case. -/
def calculateNextWakeTime (now : Int) : Int :=
  if now < 1000000000 then DEFAULT_SLEEP_SECONDS
  else
    let currentMinute := tmMin now
    let currentSecond := tmSec now
    let targetMinute := if currentMinute < 30 then (30 : Int) else 60
    let minutesToTarget := targetMinute - currentMinute
    let secondsToTarget := minutesToTarget * 60 - currentSecond
    if minutesToTarget = 60 then (60 - currentMinute) * 60 - currentSecond
    else secondsToTarget

/-- Modelled from the spec: the Schedule Planner entry point over the
optional time source (`nextWake(now: Option<EpochSeconds>)`, spec
§4.4).  The source has no `Option`: an absent time reaches
`calculateNextWakeTime` only as an implausible pre-sync `time_t` value
below the threshold, which `0` represents here. -/
def nextWake (now : Option Int) : Int :=
  match now with
  | none => calculateNextWakeTime 0
  | some t => calculateNextWakeTime t

/-- The two wake sources `goToSleep` can arm. -/
inductive WakeSource
  | Timer
  | ButtonEdge
deriving DecidableEq

/-- A sleep request: duration plus the set of armed wake sources. -/
structure SleepPlan where
  durationSeconds : Int
  wakeSourcesArmed : List WakeSource
deriving DecidableEq

/-- `goToSleep` (`SoilMonitor.ino` lines 577–597): unconditionally arms
the GPIO2 edge wake (`esp_sleep_enable_ext0_wakeup`) and the timer wake
(`esp_sleep_enable_timer_wakeup`) before suspending. -/
def goToSleep (sleepSeconds : Int) : SleepPlan :=
  { durationSeconds := sleepSeconds
    wakeSourcesArmed := [WakeSource.ButtonEdge, WakeSource.Timer] }

/-- Wake cause as reported by `esp_sleep_get_wakeup_cause` and consumed
by `setup` (`SoilMonitor.ino` lines 35–59): `PowerOn` is
`ESP_SLEEP_WAKEUP_UNDEFINED`. -/
inductive WakeCause
  | PowerOn
  | TimerExpired
  | ButtonEdge
  | Other (code : Int)
deriving DecidableEq

/-- External inputs of one boot cycle: whether the WiFi/GitHub config
is present in NVS (`checkInitialSetup`), whether the button is held low
inside the 100 ms window (`checkButtonPress`), the measured press
duration (`handleButtonOperation`), whether WiFi connects
(`connectToWiFi`), the `time_t` read after the NTP wait, and the
20-sample calibration average. -/
structure BootEnv where
  configPresent : Bool
  buttonHeld : Bool
  pressMs : Int
  wifiConnects : Bool
  now : Int
  calibSample : Int
deriving DecidableEq

/-- How a boot cycle ends: entering deep sleep with a plan, or
`ESP.restart()` after the interactive first-time setup
(`performInitialSetup`, which blocks on operator input and never
returns normally). -/
inductive BootResult
  | sleeps (plan : SleepPlan)
  | restarts
deriving DecidableEq

/-- Observable effects of one boot cycle: how it ended, whether the
soil sensor was sampled for a measurement, whether a delivery to the
webhook was attempted, and the `sensor-config` store afterwards. -/
structure BootOutcome where
  result : BootResult
  sensorRead : Bool
  deliveryAttempted : Bool
  sensorStore : SensorStore
deriving DecidableEq

/-- One boot cycle of `setup` (`SoilMonitor.ino` lines 28–68) and the
handlers it dispatches to: `performInitialSleep` (55–59, 555–575) on a
power-on wake; otherwise `checkButtonPress`/`handleButtonOperation`
(62–64, 85–119) leading to `performManualMeasurement` (121–143) or
`performCalibration` (145–291); else `performNormalOperation`
(304–333).  A missing configuration leads through `checkInitialSetup`
into `performInitialSetup`, which saves operator-supplied credentials
and restarts. -/
def bootStep (cause : WakeCause) (env : BootEnv) (st : SensorStore) : BootOutcome :=
  match cause with
  | WakeCause.PowerOn =>
    if env.configPresent then
      if env.wifiConnects then
        ⟨BootResult.sleeps (goToSleep (calculateNextWakeTime env.now)), false, false, st⟩
      else
        ⟨BootResult.sleeps (goToSleep DEFAULT_SLEEP_SECONDS), false, false, st⟩
    else
      ⟨BootResult.restarts, false, false, st⟩
  | _ =>
    if env.buttonHeld then
      if env.pressMs < 1000 then
        if env.wifiConnects then
          ⟨BootResult.sleeps (goToSleep (calculateNextWakeTime env.now)), true, true, st⟩
        else
          ⟨BootResult.sleeps (goToSleep DEFAULT_SLEEP_SECONDS), false, false, st⟩
      else
        ⟨BootResult.sleeps (goToSleep 300), true, false, performCalibration env.calibSample st⟩
    else
      if env.configPresent then
        if env.wifiConnects then
          ⟨BootResult.sleeps (goToSleep (calculateNextWakeTime env.now)), true, true, st⟩
        else
          ⟨BootResult.sleeps (goToSleep DEFAULT_SLEEP_SECONDS), false, false, st⟩
      else
        ⟨BootResult.restarts, false, false, st⟩

/-- Helper: `goToSleep` arms both wake sources whatever the duration. -/
theorem goToSleep_arms_both (k : Int) :
    WakeSource.Timer ∈ (goToSleep k).wakeSourcesArmed ∧
    WakeSource.ButtonEdge ∈ (goToSleep k).wakeSourcesArmed := by
  simp [goToSleep]

/-- Claim C1: for every averaged sample (any integer, inside or outside
the calibration interval) and every calibration pair with
`dryValue ≠ wetValue`, the moisture percentage computed by
`mapMoisture` lies in `[0, 100]`. -/
theorem mapMoisture_in_range (s : Int) (pair : CalibrationPair)
    (_h : pair.dryValue ≠ pair.wetValue) :
    0 ≤ mapMoisture s pair ∧ mapMoisture s pair ≤ 100 := by
  unfold mapMoisture constrain
  split_ifs <;> omega

/-- Witness for C1 at the sample 5000 and the default pair. -/
theorem mapMoisture_in_range_witness :
    0 ≤ mapMoisture 5000 ⟨2800, 1300⟩ ∧ mapMoisture 5000 ⟨2800, 1300⟩ ≤ 100 :=
  mapMoisture_in_range 5000 ⟨2800, 1300⟩ (by decide)

/-- Claim C2: for every 20-sample average and every stored pair, the
calibration writes follow exactly the ordered rule — `s ≥ 2000` sets
the dry endpoint keeping the wet one, `s ≤ 1800` sets the wet endpoint
keeping the dry one, and in the ambiguous band nothing at all is
written to the store.  Stated as agreement with the spec-level rule
`specCalibrate` plus the frame facts on the store. -/
theorem performCalibration_rule (s : Int) (st : SensorStore) :
    (storePair (performCalibration s st), calibrationOutcome s)
        = specCalibrate s (storePair st)
    ∧ (calibrationOutcome s = Outcome.DryUpdated →
        (performCalibration s st).wet = st.wet)
    ∧ (calibrationOutcome s = Outcome.WetUpdated →
        (performCalibration s st).dry = st.dry)
    ∧ (calibrationOutcome s = Outcome.NoChange →
        performCalibration s st = st) := by
  unfold performCalibration calibrationOutcome specCalibrate storePair
  split_ifs <;> simp_all

/-- Witness for C2 at the ambiguous sample 1900 over the default store. -/
theorem performCalibration_rule_witness :
    performCalibration 1900 ⟨some 2800, some 1300⟩ = ⟨some 2800, some 1300⟩ :=
  (performCalibration_rule 1900 ⟨some 2800, some 1300⟩).2.2.2 (by decide)

/-- Claim C3: every boot path that suspends the device arms both wake
sources: whichever handler produced the sleep plan (first boot, manual
measurement, calibration, normal operation, or a failure fallback),
the plan's armed set contains both the timer wake and the button edge
wake. -/
theorem bootStep_arms_both_wake_sources (cause : WakeCause) (env : BootEnv)
    (st : SensorStore) (plan : SleepPlan)
    (h : (bootStep cause env st).result = BootResult.sleeps plan) :
    WakeSource.Timer ∈ plan.wakeSourcesArmed ∧
    WakeSource.ButtonEdge ∈ plan.wakeSourcesArmed := by
  cases cause <;>
    (simp only [bootStep] at h
     split_ifs at h <;> simp only [BootResult.sleeps.injEq] at h <;>
       exact h ▸ goToSleep_arms_both _)

/-- Witness for C3: a normal-operation boot with WiFi down sleeps on
the default plan, which has both wake sources armed. -/
theorem bootStep_arms_both_wake_sources_witness :
    WakeSource.Timer ∈ (goToSleep 1800).wakeSourcesArmed ∧
    WakeSource.ButtonEdge ∈ (goToSleep 1800).wakeSourcesArmed :=
  bootStep_arms_both_wake_sources WakeCause.TimerExpired
    ⟨true, false, 0, false, 0, 0⟩ ⟨none, none⟩ (goToSleep 1800) (by decide)

/-- Claim C4: for every valid current time (epoch seconds at or above
the sanity threshold), the planned sleep duration is between 0 and 1800
seconds, and equals the distance to the target boundary — minute 30
when the current minute is below 30, the next hour's :00 otherwise. -/
theorem calculateNextWakeTime_bounds (t : Int) (h : 1000000000 ≤ t) :
    0 ≤ calculateNextWakeTime t ∧ calculateNextWakeTime t ≤ 1800 ∧
    calculateNextWakeTime t
      = ((if tmMin t < 30 then (30 : Int) else 60) - tmMin t) * 60 - tmSec t := by
  simp only [calculateNextWakeTime, tmMin, tmSec, DEFAULT_SLEEP_SECONDS, JST_OFFSET]
  split_ifs <;> omega

/-- Witness for C4 at the epoch second 1000000000 (local 10:46:40). -/
theorem calculateNextWakeTime_bounds_witness :
    0 ≤ calculateNextWakeTime 1000000000 ∧ calculateNextWakeTime 1000000000 ≤ 1800 ∧
    calculateNextWakeTime 1000000000
      = ((if tmMin 1000000000 < 30 then (30 : Int) else 60) - tmMin 1000000000) * 60
          - tmSec 1000000000 :=
  calculateNextWakeTime_bounds 1000000000 (by decide)

/-- Claim C5: when the current time is absent or below the sanity
threshold 1_000_000_000, the schedule planner returns exactly the fixed
1800-second fallback; in particular `nextWake none = 1800`. -/
theorem calculateNextWakeTime_fallback (t : Int) (h : t < 1000000000) :
    calculateNextWakeTime t = 1800 ∧ nextWake none = 1800 := by
  constructor
  · unfold calculateNextWakeTime DEFAULT_SLEEP_SECONDS
    rw [if_pos h]
  · decide

/-- Witness for C5 at the pre-sync time value 0. -/
theorem calculateNextWakeTime_fallback_witness :
    calculateNextWakeTime 0 = 1800 ∧ nextWake none = 1800 :=
  calculateNextWakeTime_fallback 0 (by decide)

/-- Claim C6: for every averaged sample, a degenerate calibration pair
(`dryValue = wetValue`) raises no error: the guarded `map` returns -1,
the clamp saturates it to the lower bound, and the computed percentage
is 0, inside `[0, 100]`. -/
theorem mapMoisture_degenerate_total (s d : Int) :
    mapMoisture s ⟨d, d⟩ = 0 ∧
    0 ≤ mapMoisture s ⟨d, d⟩ ∧ mapMoisture s ⟨d, d⟩ ≤ 100 := by
  unfold mapMoisture arduinoMap constrain
  rw [sub_self]
  norm_num

/-- Counterexample for C7: the claim that the computed percentage for
sample 1500 under the default pair rounds to 86.7 at one decimal place
(payload tenths = 867) is false on the code: the integer `map`
truncates toward zero, so the payload carries 86.0 (tenths = 860). -/
theorem mapMoisture_spec_example_fails :
    moisturePercentTenths 1500 ⟨2800, 1300⟩ ≠ 867 := by decide

/-- Claim C7 (amended): `mapMoisture` at sample 1500 under the default
pair yields exactly 86 percent — the integer `map` truncates the real
interpolation 86.67 toward zero — and the payload one-decimal value is
86.0 (860 tenths). -/
theorem mapMoisture_spec_example_actual :
    mapMoisture 1500 ⟨2800, 1300⟩ = 86 ∧
    moisturePercentTenths 1500 ⟨2800, 1300⟩ = 860 := by decide

/-- Counterexample for C8: on a power-on wake with configuration
absent, the boot does not plan a 3600-second fallback sleep — it enters
the interactive setup path and restarts (the `goToSleep(3600)` branch
of `performInitialSleep` is unreachable because `performInitialSetup`
ends in `ESP.restart()`). -/
theorem powerOn_config_missing_restarts :
    (bootStep WakeCause.PowerOn ⟨false, false, 0, false, 0, 0⟩ ⟨none, none⟩).result
      = BootResult.restarts
    ∧ (bootStep WakeCause.PowerOn ⟨false, false, 0, false, 0, 0⟩ ⟨none, none⟩).result
        ≠ BootResult.sleeps (goToSleep 3600) := by decide

/-- Claim C8 (amended): on a power-on wake no sensor read, no
data-delivery attempt and no calibration-store write occurs; if
configuration is absent the handler enters interactive setup and
restarts (never reaching the 3600-second fallback sleep); otherwise it
attempts WiFi/time sync and sleeps — through the schedule planner on
success, or on the 1800-second default when WiFi fails. -/
theorem bootStep_powerOn_frame (env : BootEnv) (st : SensorStore) :
    (bootStep WakeCause.PowerOn env st).sensorRead = false
    ∧ (bootStep WakeCause.PowerOn env st).deliveryAttempted = false
    ∧ (bootStep WakeCause.PowerOn env st).sensorStore = st
    ∧ (env.configPresent = false →
        (bootStep WakeCause.PowerOn env st).result = BootResult.restarts)
    ∧ (env.configPresent = true → env.wifiConnects = true →
        (bootStep WakeCause.PowerOn env st).result
          = BootResult.sleeps (goToSleep (calculateNextWakeTime env.now)))
    ∧ (env.configPresent = true → env.wifiConnects = false →
        (bootStep WakeCause.PowerOn env st).result
          = BootResult.sleeps (goToSleep DEFAULT_SLEEP_SECONDS)) := by
  rcases env with ⟨cp, bh, pm, wc, now, cs⟩
  cases cp <;> cases wc <;> simp [bootStep]

/-- Witness for C8 at a concrete config-present, WiFi-up environment. -/
theorem bootStep_powerOn_frame_witness :
    (bootStep WakeCause.PowerOn ⟨true, false, 0, true, 0, 0⟩ ⟨none, none⟩).result
      = BootResult.sleeps (goToSleep (calculateNextWakeTime 0)) :=
  (bootStep_powerOn_frame ⟨true, false, 0, true, 0, 0⟩ ⟨none, none⟩).2.2.2.2.1 rfl rfl

/-- Counterexample for C9: the debug menu's calibration is not
extensionally equal to the autonomous Calibration Engine: when every
sensor read averages 1900 over the default store, `performCalibration`
leaves the pair at (2800, 1300) while the debug `calibrateSensor`
writes the pair (1900, 1900). -/
theorem calibrateSensor_differs :
    storePair (calibrateSensor 1900 1900 ⟨none, none⟩)
      ≠ storePair (performCalibration 1900 ⟨none, none⟩) := by decide

/-- Claim C9 (amended): the debug menu's calibration is a parallel
implementation, not the engine of `performCalibration`: it
unconditionally overwrites both endpoints with its two prompted phase
averages, with no threshold classification and no no-change case. -/
theorem calibrateSensor_writes_both (d w : Int) (st : SensorStore) :
    calibrateSensor d w st = ⟨some d, some w⟩ ∧
    storePair (calibrateSensor d w st) = ⟨d, w⟩ := by
  unfold calibrateSensor storePair
  simp

/-- Claim C10: for every valid current time (epoch seconds at or above
the sanity threshold), the minutes-to-target distance lies in `[1, 30]`
and the planned sleep duration is strictly positive — the timer wake is
never armed with a zero duration on the aligned-schedule path. -/
theorem calculateNextWakeTime_pos (t : Int) (h : 1000000000 ≤ t) :
    1 ≤ (if tmMin t < 30 then (30 : Int) else 60) - tmMin t ∧
    (if tmMin t < 30 then (30 : Int) else 60) - tmMin t ≤ 30 ∧
    1 ≤ calculateNextWakeTime t := by
  simp only [calculateNextWakeTime, tmMin, tmSec, DEFAULT_SLEEP_SECONDS, JST_OFFSET]
  split_ifs <;> omega

/-- Witness for C10 at the epoch second 1500000000 (local 9:40:00). -/
theorem calculateNextWakeTime_pos_witness :
    1 ≤ (if tmMin 1500000000 < 30 then (30 : Int) else 60) - tmMin 1500000000 ∧
    (if tmMin 1500000000 < 30 then (30 : Int) else 60) - tmMin 1500000000 ≤ 30 ∧
    1 ≤ calculateNextWakeTime 1500000000 :=
  calculateNextWakeTime_pos 1500000000 (by decide)
